import Mathlib

/-!
Verification development for the `whisperthingy` desktop transcription
application (`src/main.py`).  The file embeds, as executable Lean
definitions, the parts of the program the specification talks about:

* the transcription worker (`TranscriptionWorker.run`, `_read_stream`,
  `cleanup_temp_files`, lines 46-176 of `main.py`), modelled as a pure
  function from the worker's configuration, the child process's observed
  behaviour (stdout lines, stderr lines, exit code) and a file-system
  snapshot to the sequence of emitted Qt signals and the resulting
  file system;
* the recording controller (`start_recording`, `record_audio_thread`,
  `stop_recording`, `update_recording_time`, lines 429-531), modelled as
  a small transition system on an explicit state record.

The two stream-reader threads share only the `_is_error_emitted` flag,
and only the stderr reader ever reads or writes it while the streams are
being drained (the stdout branch of `_read_stream` never touches it, and
`run` reads it only after joining both threads).  The flag's evolution is
therefore sequential and determined by the stderr lines alone; the only
concurrency left is the order in which progress events from the two
streams interleave, which the model captures with an arbitrary boolean
schedule.  Python exceptions (the `except` clause at lines 148-151) have
no counterpart in the model because every embedded operation is total.
-/

namespace Whisperthingy

/-! ## Python string primitives -/

/-- Whitespace characters stripped by Python's `str.strip()` (ASCII part). -/
def isPySpace (c : Char) : Bool :=
  c = ' ' ∨ c = '\t' ∨ c = '\n' ∨ c = '\r' ∨ c = '\x0b' ∨ c = '\x0c'

/-- Python `str.strip()`: remove leading and trailing whitespace. -/
def pyStrip (s : String) : String :=
  String.mk (((s.data.dropWhile isPySpace).reverse.dropWhile isPySpace).reverse)

/-- Python `str.lower()` (ASCII part, which covers the keywords used). -/
def pyLower (s : String) : String :=
  String.mk (s.data.map Char.toLower)

/-- Substring test on character lists: does `needle` occur inside the list? -/
def containsSubL (needle : List Char) : List Char → Bool
  | [] => needle.isPrefixOf []
  | c :: cs => needle.isPrefixOf (c :: cs) || containsSubL needle cs

/-- Python's `needle in hay` test on strings. -/
def containsSub (hay needle : String) : Bool :=
  containsSubL needle.data hay.data

/-! ## posixpath model

The worker uses `os.path.dirname`, `os.path.basename`, `os.path.splitext`,
`os.path.join` and `os.path.abspath`; these are the POSIX variants,
reproduced from CPython's `posixpath.py`. -/

/-- Characters after the last `/` (the whole list if there is none). -/
def basenameL (l : List Char) : List Char :=
  ((l.reverse.takeWhile (fun c => c ≠ '/')).reverse)

/-- Characters up to and including the last `/` (empty if there is none). -/
def headL (l : List Char) : List Char :=
  (l.reverse.dropWhile (fun c => c ≠ '/')).reverse

/-- `posixpath.dirname`: the head of the split, with trailing slashes
stripped unless the head consists only of slashes. -/
def dirnameL (l : List Char) : List Char :=
  let h := headL l
  if h.all (fun c => c = '/') then h
  else (h.reverse.dropWhile (fun c => c = '/')).reverse

def dirname (p : String) : String := String.mk (dirnameL p.data)

def basename (p : String) : String := String.mk (basenameL p.data)

/-- `posixpath.splitext`: split off the extension at the last dot of the
basename, unless every character of the basename before that dot is a dot. -/
def splitextL (l : List Char) : List Char × List Char :=
  let b := basenameL l
  let extRev := b.reverse.takeWhile (fun c => c ≠ '.')
  if extRev.length = b.length then (l, [])
  else
    let pre := b.take (b.length - extRev.length - 1)
    if pre.any (fun c => c ≠ '.') then
      (l.take (l.length - extRev.length - 1), '.' :: extRev.reverse)
    else (l, [])

def splitext (p : String) : String × String :=
  (String.mk (splitextL p.data).1, String.mk (splitextL p.data).2)

/-- Leading-characters test (`str.startswith` for a literal, on the data). -/
def startsWithL (s : String) (pre : List Char) : Bool :=
  pre.isPrefixOf s.data

/-- Does the string end with `/` (`str.endswith('/')`)? -/
def endsWithSlash (s : String) : Bool :=
  match s.data.getLast? with
  | some '/' => true
  | _ => false

/-- `posixpath.join` restricted to two components, as used by the source. -/
def pathJoin (a b : String) : String :=
  if startsWithL b ['/'] then b
  else if a = "" ∨ endsWithSlash a then a ++ b
  else a ++ "/" ++ b

/-- Python's `str.split('/')` on the character data. -/
def splitOnSlash (l : List Char) : List (List Char) :=
  l.foldr (fun c acc =>
    if c = '/' then [] :: acc
    else
      match acc with
      | [] => [[c]]
      | a :: as => (c :: a) :: as) [[]]

/-- Python's `'/'.join`. -/
def joinWithSlash : List String → String
  | [] => ""
  | [x] => x
  | x :: xs => x ++ "/" ++ joinWithSlash xs

/-- Component normalisation loop of `posixpath.normpath`. -/
def normComps (comps : List String) (initialSlashes : Bool) : List String :=
  comps.foldl (fun acc comp =>
    if comp = "" ∨ comp = "." then acc
    else if comp ≠ ".." ∨ (¬ initialSlashes ∧ acc = []) ∨ acc.getLast? = some ".." then
      acc ++ [comp]
    else if acc ≠ [] then acc.dropLast
    else acc) []

/-- `posixpath.normpath`. -/
def normpath (p : String) : String :=
  if p = "" then "." else
  let islashes : Nat :=
    if startsWithL p ['/', '/'] ∧ ¬ startsWithL p ['/', '/', '/'] then 2
    else if startsWithL p ['/'] then 1 else 0
  let joined := joinWithSlash (normComps ((splitOnSlash p.data).map String.mk) (islashes ≠ 0))
  let res := String.mk (List.replicate islashes '/') ++ joined
  if res = "" then "." else res

/-- `posixpath.abspath` with the current working directory passed explicitly. -/
def abspath (cwd p : String) : String :=
  if startsWithL p ['/'] then normpath p else normpath (pathJoin cwd p)

/-! ## Constants from `main.py` -/

/-- `COMMON_WHISPER_LANGUAGES` (lines 16-29): the language choices offered
by the UI's language combo box. -/
def COMMON_WHISPER_LANGUAGES : List String := [
  "Auto", "English", "Russian", "Chinese", "German", "Spanish", "Korean",
  "French", "Japanese", "Portuguese", "Turkish", "Polish", "Catalan",
  "Dutch", "Arabic", "Swedish", "Italian", "Indonesian", "Hindi",
  "Finnish", "Vietnamese", "Hebrew", "Ukrainian", "Greek", "Thai",
  "Czech", "Romanian", "Danish", "Hungarian", "Norwegian", "Urdu",
  "Croatian", "Bulgarian", "Serbian", "Gujarati", "Telugu", "Kannada",
  "Malayalam", "Marathi", "Nepali", "Mongolian", "Bosnian", "Kazakh",
  "Albanian", "Swahili", "Slovenian", "Armenian", "Estonian", "Welsh",
  "Latvian", "Lithuanian", "Macedonian", "Georgian", "Azerbaijani",
  "Afrikaans", "Irish", "Scottish Gaelic", "Luxembourgish", "Yiddish",
  "Icelandic", "Haitian Creole", "Malagasy", "Esperanto", "Persian", "Sanskrit",
  "Lao", "Tibetan", "Burmese", "Tagalog", "Khmer", "Maori", "Sindhi", "Amharic"]

/-- Device choices offered by the UI's device combo box (line 233). -/
def device_options : List String := ["Auto", "GPU (CUDA)", "CPU"]

/-- `extensions_to_remove` in `cleanup_temp_files` (line 169). -/
def extensions_to_remove : List String := [".txt", ".json", ".srt", ".tsv", ".vtt"]

/-! ## File-system snapshot -/

/-- A file-system snapshot: an association list from paths to file contents. -/
abbrev FS := List (String × String)

/-- Path lookup; `none` models `os.path.exists` returning `False`. -/
def fsLookup : FS → String → Option String
  | [], _ => none
  | kv :: rest, p => if kv.1 = p then some kv.2 else fsLookup rest p

/-- `os.remove` on the snapshot; removing an absent path is a no-op, which
also models the swallowed exception of `cleanup_temp_files`. -/
def fsRemove (fs : FS) (p : String) : FS :=
  fs.filter (fun kv => kv.1 != p)

/-- `TranscriptionWorker.cleanup_temp_files` (lines 168-176): best-effort
removal of `base + ext` for each listed extension. -/
def cleanup_temp_files (fs : FS) (basePathNoExt : String) : FS :=
  extensions_to_remove.foldl (fun acc ext => fsRemove acc (basePathNoExt ++ ext)) fs

/-! ## The transcription worker -/

/-- `TranscriptionWorker.__init__` state (lines 51-59).  `whisper_executable`
is the result of `_find_whisper_executable`, which depends only on the host
environment, so it enters the model as a field (`none` models the `None`
returned when the executable is nowhere to be found). -/
structure TranscriptionWorker where
  audio_file : String
  language : String
  model_name : String
  device : String
  keep_output_files : Bool
  whisper_executable : Option String
deriving DecidableEq

/-- One Qt signal emitted by the worker: `progress_update`, `finished`
(success, carrying the transcript) or `error` (failure, carrying the
message). -/
inductive Ev where
  | progress (msg : String)
  | finished (text : String)
  | error (msg : String)
deriving DecidableEq

/-- Observed behaviour of the child process: the lines each pipe produced
and the exit code. -/
structure ProcResult where
  stdoutLines : List String
  stderrLines : List String
  returncode : Int
deriving DecidableEq

/-- Message of line 87. -/
def exeNotFoundMsg : String :=
  "Whisper executable not found. Please ensure \x27whisper\x27 is installed and accessible in your environment (virtual environment or PATH)."

/-- Message of line 92. -/
def preparingMsg : String := "Preparing transcription command..."

/-- Message of line 107. -/
def startingMsg (w : TranscriptionWorker) : String :=
  "Starting transcription (model: \x27" ++ w.model_name ++ "\x27, device: \x27" ++ w.device ++ "\x27)..."

/-- Message of line 133. -/
def savedMsg (odir : String) : String :=
  "Transcription files saved to: " ++ odir

/-- Message of lines 137-138. -/
def txtMissingMsg (txt : String) : String :=
  "Transcription file not found at: " ++ txt ++ "\nPlease ensure Whisper successfully created the file."

/-- Message of lines 143-144. -/
def processFailedMsg (rc : Int) : String :=
  "Whisper process exited with error code: " ++ toString rc ++ ".\nCheck console for more details."

/-- Message of line 163. -/
def runtimeErrMsg (cleanLine : String) : String :=
  "Whisper CLI Runtime Error: " ++ cleanLine

/-- `output_dir` of line 104: `os.path.dirname(os.path.abspath(audio_file))`. -/
def output_dir (cwd audio : String) : String := dirname (abspath cwd audio)

/-- `base_name` of line 123: `os.path.splitext(os.path.basename(audio_file))[0]`. -/
def base_name (audio : String) : String := (splitext (basename audio)).1

/-- `txt_file` of line 124: `os.path.join(output_dir, base_name + ".txt")`. -/
def txt_file (cwd audio : String) : String :=
  pathJoin (output_dir cwd audio) (base_name audio ++ ".txt")

/-- Argument passed to `cleanup_temp_files` at line 131:
`os.path.join(output_dir, base_name)`. -/
def base_path_no_ext (cwd audio : String) : String :=
  pathJoin (output_dir cwd audio) (base_name audio)

/-- The command list built at lines 94-105.  Python's
`if self.language and self.language != "Auto"` makes the truthiness test
explicit as `w.language ≠ ""`. -/
def buildCmd (w : TranscriptionWorker) (exe : String) (cwd : String) : List String :=
  [exe, w.audio_file, "--model", w.model_name]
    ++ (if w.language ≠ "" ∧ w.language ≠ "Auto" then ["--language", w.language] else [])
    ++ (if w.device = "GPU (CUDA)" then ["--device", "cuda"]
        else if w.device = "CPU" then ["--device", "cpu"] else [])
    ++ ["--output_dir", output_dir cwd w.audio_file, "--output_format", "txt"]

/-- Keyword classification of a stripped stderr line (line 161). -/
def isErrLine (c : String) : Bool :=
  containsSub (pyLower c) "error" || containsSub (pyLower c) "exception"
    || containsSub (pyLower c) "failed"

/-- Marker classification of a stripped stdout line (line 158). -/
def isStdoutMarker (c : String) : Bool :=
  containsSub c "Detected language" || containsSub c "Loading audio"
    || containsSub c "Applying ASR"

/-- One iteration of the stdout branch of `_read_stream` (lines 154-159). -/
def processStdoutLine (line : String) : List Ev :=
  let c := pyStrip line
  if c = "" then []
  else if isStdoutMarker c then [Ev.progress c] else []

/-- The stdout reader thread over all its lines. -/
def readStdoutLines (ls : List String) : List Ev :=
  (ls.map processStdoutLine).flatten

/-- One iteration of the stderr branch of `_read_stream` (lines 154-166),
threading the `_is_error_emitted` flag. -/
def processStderrLine (flag : Bool) (line : String) : List Ev × Bool :=
  let c := pyStrip line
  if c = "" then ([], flag)
  else if isErrLine c then
    (if flag then ([], flag) else ([Ev.error (runtimeErrMsg c)], true))
  else ([Ev.progress c], flag)

/-- The stderr reader thread over all its lines. -/
def readStderrLines : List String → Bool → List Ev × Bool
  | [], flag => ([], flag)
  | l :: ls, flag =>
    let head := processStderrLine flag l
    let rest := readStderrLines ls head.2
    (head.1 ++ rest.1, rest.2)

/-- An arbitrary interleaving of two event streams, directed by a boolean
schedule; once the schedule runs out the remainders are concatenated. -/
def interleave : List Bool → List Ev → List Ev → List Ev
  | [], xs, ys => xs ++ ys
  | true :: s, xs, ys =>
    match xs with
    | [] => ys
    | x :: xs => x :: interleave s xs ys
  | false :: s, xs, ys =>
    match ys with
    | [] => xs
    | y :: ys => y :: interleave s xs ys

/-- Lines 122-147 of `run`: what happens after `process.wait()` and the two
`join`s, given the exit code, the flag as the stderr reader left it, and the
file system.  Returns the emitted events (in order) and the file system
after the optional cleanup. -/
def postEvents (w : TranscriptionWorker) (cwd : String) (rc : Int) (flag : Bool)
    (fs : FS) : List Ev × FS :=
  if rc = 0 then
    match fsLookup fs (txt_file cwd w.audio_file) with
    | some content =>
      if w.keep_output_files then
        ([Ev.progress (savedMsg (output_dir cwd w.audio_file)),
          Ev.finished (pyStrip content)], fs)
      else
        ([Ev.finished (pyStrip content)],
         cleanup_temp_files fs (base_path_no_ext cwd w.audio_file))
    | none =>
      if flag then ([], fs)
      else ([Ev.error (txtMissingMsg (txt_file cwd w.audio_file))], fs)
  else
    if flag then ([], fs) else ([Ev.error (processFailedMsg rc)], fs)

/-- `TranscriptionWorker.run` (lines 85-151) for one job: the full ordered
sequence of emitted signals and the resulting file system.  `sched` chooses
the interleaving of the two reader threads' progress events; the
`_is_error_emitted` flag is sequential (see the file header), so everything
else is deterministic. -/
def runJob (w : TranscriptionWorker) (cwd : String) (pr : ProcResult)
    (sched : List Bool) (fs : FS) : List Ev × FS :=
  match w.whisper_executable with
  | none => ([Ev.error exeNotFoundMsg], fs)
  | some _ =>
    let streamEvs := interleave sched (readStdoutLines pr.stdoutLines)
      (readStderrLines pr.stderrLines false).1
    let post := postEvents w cwd pr.returncode (readStderrLines pr.stderrLines false).2 fs
    ([Ev.progress preparingMsg, Ev.progress (startingMsg w)] ++ streamEvs ++ post.1,
     post.2)

/-! ## The recording controller -/

/-- The recording-related state of `VoiceRecorderApp`: the `recording`
flag, whether the elapsed-seconds `QTimer` is running, the counter it
drives, the captured chunks and whether the input stream is open. -/
structure VoiceRecorderState where
  recording : Bool
  timerOn : Bool
  recording_time : Nat
  audio_frames : List (List Nat)
  streamOpen : Bool
deriving DecidableEq

/-- The state set up by `__init__` (lines 182-190). -/
def initState : VoiceRecorderState :=
  { recording := false, timerOn := false, recording_time := 0,
    audio_frames := [], streamOpen := false }

/-- `start_recording` (lines 435-467): clear the frame buffer, open the
stream, set the flag, zero the counter and start the timer. -/
def start_recording (s : VoiceRecorderState) : VoiceRecorderState :=
  { s with
    recording := true, timerOn := true, recording_time := 0,
    audio_frames := [], streamOpen := true }

/-- One iteration of the capture loop in `record_audio_thread`
(lines 473-480); `none` models `stream.read` raising, in which case the
loop clears `recording` and exits without touching anything else. -/
def record_audio_step (s : VoiceRecorderState) (readResult : Option (List Nat)) :
    VoiceRecorderState :=
  if s.recording then
    match readResult with
    | some d => { s with audio_frames := s.audio_frames ++ [d] }
    | none => { s with recording := false }
  else s

/-- `update_recording_time` (lines 527-531), fired by the timer. -/
def update_recording_time (s : VoiceRecorderState) : VoiceRecorderState :=
  { s with recording_time := s.recording_time + 1 }

/-- The WAV file written by `stop_recording`: name, the fixed audio
parameters of `setup_audio` (mono, 16-bit samples, 44100 Hz) and the
concatenated captured chunks. -/
structure WavFile where
  name : String
  nchannels : Nat
  sampwidth : Nat
  framerate : Nat
  frames : List Nat
deriving DecidableEq

/-- User-visible outcome notifications of `stop_recording`. -/
inductive RecEvent where
  | emptyRecordingWarning
  | savedFile (name : String)
deriving DecidableEq

/-- `stop_recording` (lines 482-508): clear the flag, stop the timer,
close the stream; if no chunks were captured warn and write nothing,
otherwise write all chunks in order to `recording_<timestamp>.wav`. -/
def stop_recording (s : VoiceRecorderState) (timestamp : String) :
    VoiceRecorderState × Option WavFile × List RecEvent :=
  let s1 := { s with recording := false, timerOn := false, streamOpen := false }
  if s.audio_frames = [] then
    (s1, none, [RecEvent.emptyRecordingWarning])
  else
    let fname := "recording_" ++ timestamp ++ ".wav"
    (s1,
     some { name := fname, nchannels := 1, sampwidth := 2, framerate := 44100,
            frames := s.audio_frames.flatten },
     [RecEvent.savedFile fname])

/-- The controller's `Idle` state: not recording, timer stopped, stream
closed. -/
def isIdle (s : VoiceRecorderState) : Bool :=
  !s.recording && !s.timerOn && !s.streamOpen

/-! ## Event classification -/

/-- Is an event a failure notification? -/
def isErrorEv : Ev → Bool
  | Ev.error _ => true
  | _ => false

/-- Is an event a success notification? -/
def isFinishedEv : Ev → Bool
  | Ev.finished _ => true
  | _ => false

/-- Is an event terminal (success or failure)? -/
def isTerminalEv (e : Ev) : Bool := isErrorEv e || isFinishedEv e

/-- What the stderr reader does with a line once an error has already been
reported: matching lines vanish, non-matching non-empty lines become
progress. -/
def progressOnly (l : String) : Option Ev :=
  let c := pyStrip l
  if c = "" then none else if isErrLine c then none else some (Ev.progress c)

/-! ## Helper lemmas -/

/-- Once the error flag is set, the stderr reader only relays non-matching
non-empty lines as progress, drops matching lines, and never clears the
flag. -/
theorem readStderrLines_flagTrue (ls : List String) :
    readStderrLines ls true = (ls.filterMap progressOnly, true) := by
  induction ls with
  | nil => rfl
  | cons l ls ih =>
    simp only [readStderrLines, processStderrLine, progressOnly, List.filterMap_cons]
    by_cases hc : pyStrip l = ""
    · simp [hc, ih]
    · by_cases he : isErrLine (pyStrip l) = true
      · simp [hc, he, ih]
      · simp [hc, he, ih]

/-- Events surviving `progressOnly` are progress events. -/
theorem progressOnly_progress {l : String} {e : Ev} (h : progressOnly l = some e) :
    isErrorEv e = false ∧ isFinishedEv e = false := by
  unfold progressOnly at h
  by_cases hc : pyStrip l = ""
  · simp [hc] at h
  · by_cases he : isErrLine (pyStrip l) = true
    · simp [hc, he] at h
    · simp [hc, he] at h
      subst h
      exact ⟨rfl, rfl⟩

/-- The stdout reader emits progress events only. -/
theorem readStdoutLines_progress (ls : List String) {e : Ev}
    (h : e ∈ readStdoutLines ls) : isErrorEv e = false ∧ isFinishedEv e = false := by
  unfold readStdoutLines at h
  rw [List.mem_flatten] at h
  obtain ⟨evs, hevs, he⟩ := h
  rw [List.mem_map] at hevs
  obtain ⟨l, _, rfl⟩ := hevs
  unfold processStdoutLine at he
  by_cases hc : pyStrip l = ""
  · simp [hc] at he
  · by_cases hm : isStdoutMarker (pyStrip l) = true
    · simp [hc, hm] at he
      subst he
      exact ⟨rfl, rfl⟩
    · simp [hc, hm] at he

/-- The stdout reader emits no failure events. -/
theorem readStdoutLines_errCount (ls : List String) :
    (readStdoutLines ls).countP isErrorEv = 0 := by
  rw [List.countP_eq_zero]
  intro e he
  simp [(readStdoutLines_progress ls he).1]

/-- The stdout reader emits no success events. -/
theorem readStdoutLines_finCount (ls : List String) :
    (readStdoutLines ls).countP isFinishedEv = 0 := by
  rw [List.countP_eq_zero]
  intro e he
  simp [(readStdoutLines_progress ls he).2]

/-- Lines relayed after the flag is set contain no failure events. -/
theorem filterMap_progressOnly_errCount (ls : List String) :
    (ls.filterMap progressOnly).countP isErrorEv = 0 := by
  rw [List.countP_eq_zero]
  intro e he
  rw [List.mem_filterMap] at he
  obtain ⟨l, _, hl⟩ := he
  simp [(progressOnly_progress hl).1]

/-- With the flag already set, the stderr reader emits no failure events. -/
theorem readStderrLines_flagTrue_errCount (ls : List String) :
    (readStderrLines ls true).1.countP isErrorEv = 0 := by
  rw [readStderrLines_flagTrue]
  exact filterMap_progressOnly_errCount ls

/-- Starting with a clear flag, the stderr reader emits exactly one failure
event if it ends with the flag set, and none otherwise. -/
theorem readStderrLines_false_errCount (ls : List String) :
    (readStderrLines ls false).1.countP isErrorEv
      = (if (readStderrLines ls false).2 then 1 else 0) := by
  induction ls with
  | nil => rfl
  | cons l ls ih =>
    simp only [readStderrLines]
    by_cases hc : pyStrip l = ""
    · simpa [processStderrLine, hc] using ih
    · by_cases he : isErrLine (pyStrip l) = true
      · have hhead : processStderrLine false l = ([Ev.error (runtimeErrMsg (pyStrip l))], true) := by
          simp [processStderrLine, hc, he]
        simp only [hhead, readStderrLines_flagTrue]
        simp [List.countP_cons, filterMap_progressOnly_errCount, isErrorEv]
      · simpa [processStderrLine, hc, he, List.countP_cons, isErrorEv] using ih

/-- The stderr reader emits no success events, whatever the flag. -/
theorem readStderrLines_finCount (ls : List String) (f : Bool) :
    (readStderrLines ls f).1.countP isFinishedEv = 0 := by
  induction ls generalizing f with
  | nil => rfl
  | cons l ls ih =>
    simp only [readStderrLines, List.countP_append]
    rw [ih]
    unfold processStderrLine
    by_cases hc : pyStrip l = ""
    · simp [hc]
    · by_cases he : isErrLine (pyStrip l) = true
      · cases f <;> simp [hc, he, List.countP_cons, isFinishedEv]
      · simp [hc, he, List.countP_cons, isFinishedEv]

/-- Defining equation of `interleave`: empty schedule. -/
theorem interleave_nil (xs ys : List Ev) : interleave [] xs ys = xs ++ ys := rfl

/-- Defining equation of `interleave`: schedule picks stdout, which is empty. -/
theorem interleave_true_nil (s : List Bool) (ys : List Ev) :
    interleave (true :: s) [] ys = ys := rfl

/-- Defining equation of `interleave`: schedule picks stdout. -/
theorem interleave_true_cons (s : List Bool) (x : Ev) (xs ys : List Ev) :
    interleave (true :: s) (x :: xs) ys = x :: interleave s xs ys := rfl

/-- Defining equation of `interleave`: schedule picks stderr, which is empty. -/
theorem interleave_false_nil (s : List Bool) (xs : List Ev) :
    interleave (false :: s) xs [] = xs := rfl

/-- Defining equation of `interleave`: schedule picks stderr. -/
theorem interleave_false_cons (s : List Bool) (xs : List Ev) (y : Ev) (ys : List Ev) :
    interleave (false :: s) xs (y :: ys) = y :: interleave s xs ys := rfl

/-- Interleaving two event streams preserves event counts. -/
theorem countP_interleave (p : Ev → Bool) :
    ∀ (s : List Bool) (xs ys : List Ev),
      (interleave s xs ys).countP p = xs.countP p + ys.countP p := by
  intro s
  induction s with
  | nil => intro xs ys; simp [interleave_nil]
  | cons b s ih =>
    intro xs ys
    cases b
    · cases ys with
      | nil => simp [interleave_false_nil]
      | cons y ys =>
        rw [interleave_false_cons, List.countP_cons, List.countP_cons, ih]
        omega
    · cases xs with
      | nil => simp [interleave_true_nil]
      | cons x xs =>
        rw [interleave_true_cons, List.countP_cons, List.countP_cons, ih]
        omega

/-- Unfolding `fsRemove` over a cons cell. -/
theorem fsRemove_cons (kv : String × String) (fs : FS) (p : String) :
    fsRemove (kv :: fs) p = if kv.1 = p then fsRemove fs p else kv :: fsRemove fs p := by
  simp only [fsRemove, List.filter_cons]
  by_cases hk : kv.1 = p <;> simp [hk]

/-- Looking a path up after removing one: the removed path is gone, other
paths are untouched. -/
theorem fsLookup_fsRemove (fs : FS) (p q : String) :
    fsLookup (fsRemove fs p) q = if q = p then none else fsLookup fs q := by
  induction fs with
  | nil => by_cases hq : q = p <;> simp [fsRemove, fsLookup, hq]
  | cons kv fs ih =>
    rw [fsRemove_cons]
    by_cases hk : kv.1 = p
    · rw [if_pos hk, ih]
      by_cases hq : q = p
      · simp [hq]
      · have hkq : ¬ kv.1 = q := by
          rw [hk]
          intro h
          exact hq h.symm
        simp [fsLookup, hq, hkq]
    · rw [if_neg hk]
      by_cases hq2 : kv.1 = q
      · have hqp : ¬ q = p := by
          intro h
          apply hk
          rw [hq2, h]
        simp [fsLookup, hq2, hqp]
      · simp [fsLookup, hq2, ih]

/-- A path absent from the snapshot stays absent through any sequence of
removals driven by a fold over extensions. -/
theorem fsLookup_foldl_remove_none (base q : String) (exts : List String) :
    ∀ fs : FS, fsLookup fs q = none →
      fsLookup (exts.foldl (fun acc ext => fsRemove acc (base ++ ext)) fs) q = none := by
  induction exts with
  | nil => intro fs h; exact h
  | cons e exts ih =>
    intro fs h
    simp only [List.foldl_cons]
    apply ih
    rw [fsLookup_fsRemove]
    by_cases hq : q = base ++ e <;> simp [hq, h]

/-- After folding removals of `base ++ ext` over a list of extensions, every
such path is absent. -/
theorem fsLookup_foldl_remove (base q : String) (exts : List String)
    (hq : ∃ ext ∈ exts, q = base ++ ext) :
    ∀ fs : FS, fsLookup (exts.foldl (fun acc ext => fsRemove acc (base ++ ext)) fs) q = none := by
  induction exts with
  | nil => simp at hq
  | cons e exts ih =>
    intro fs
    obtain ⟨ext, hmem, rfl⟩ := hq
    rcases List.mem_cons.mp hmem with h | h
    · subst h
      simp only [List.foldl_cons]
      apply fsLookup_foldl_remove_none
      rw [fsLookup_fsRemove]
      simp
    · exact ih ⟨ext, h, rfl⟩ _

/-- Terminal events split into failures and successes. -/
theorem countP_terminal (l : List Ev) :
    l.countP isTerminalEv = l.countP isErrorEv + l.countP isFinishedEv := by
  induction l with
  | nil => rfl
  | cons e l ih =>
    cases e <;> simp [List.countP_cons, isTerminalEv, isErrorEv, isFinishedEv, ih] <;> omega

/-- Failure-event count of the post-wait phase, by cases. -/
theorem postEvents_errCount (w : TranscriptionWorker) (cwd : String) (rc : Int)
    (flag : Bool) (fs : FS) :
    (postEvents w cwd rc flag fs).1.countP isErrorEv
      = if rc = 0 ∧ (fsLookup fs (txt_file cwd w.audio_file)).isSome then 0
        else if flag then 0 else 1 := by
  unfold postEvents
  by_cases hrc : rc = 0
  · cases hfile : fsLookup fs (txt_file cwd w.audio_file) with
    | some content =>
      by_cases hkeep : w.keep_output_files = true <;>
        simp [hrc, hfile, hkeep, List.countP_cons, isErrorEv]
    | none =>
      cases flag <;> simp [hrc, hfile, List.countP_cons, isErrorEv]
  · cases flag <;> simp [hrc, List.countP_cons, isErrorEv]

/-- Success-event count of the post-wait phase, by cases. -/
theorem postEvents_finCount (w : TranscriptionWorker) (cwd : String) (rc : Int)
    (flag : Bool) (fs : FS) :
    (postEvents w cwd rc flag fs).1.countP isFinishedEv
      = if rc = 0 ∧ (fsLookup fs (txt_file cwd w.audio_file)).isSome then 1 else 0 := by
  unfold postEvents
  by_cases hrc : rc = 0
  · cases hfile : fsLookup fs (txt_file cwd w.audio_file) with
    | some content =>
      by_cases hkeep : w.keep_output_files = true <;>
        simp [hrc, hfile, hkeep, List.countP_cons, isFinishedEv]
    | none =>
      cases flag <;> simp [hrc, hfile, List.countP_cons, isFinishedEv]
  · cases flag <;> simp [hrc, List.countP_cons, isFinishedEv]

/-- Failure-event count of a whole job, by cases. -/
theorem runJob_errCount (w : TranscriptionWorker) (cwd : String) (pr : ProcResult)
    (sched : List Bool) (fs : FS) (e : String) (hexe : w.whisper_executable = some e) :
    (runJob w cwd pr sched fs).1.countP isErrorEv
      = (if (readStderrLines pr.stderrLines false).2 then 1 else 0)
        + (if pr.returncode = 0 ∧ (fsLookup fs (txt_file cwd w.audio_file)).isSome then 0
           else if (readStderrLines pr.stderrLines false).2 then 0 else 1) := by
  simp only [runJob, hexe]
  rw [List.countP_append, List.countP_append, countP_interleave,
    readStdoutLines_errCount, readStderrLines_false_errCount, postEvents_errCount]
  simp [List.countP_cons, isErrorEv]

/-- Success-event count of a whole job, by cases. -/
theorem runJob_finCount (w : TranscriptionWorker) (cwd : String) (pr : ProcResult)
    (sched : List Bool) (fs : FS) (e : String) (hexe : w.whisper_executable = some e) :
    (runJob w cwd pr sched fs).1.countP isFinishedEv
      = if pr.returncode = 0 ∧ (fsLookup fs (txt_file cwd w.audio_file)).isSome then 1 else 0 := by
  simp only [runJob, hexe]
  rw [List.countP_append, List.countP_append, countP_interleave,
    readStdoutLines_finCount, readStderrLines_finCount, postEvents_finCount]
  simp [List.countP_cons, isFinishedEv]

/-! ## Concrete jobs used by counterexamples and witnesses -/

/-- A worker for a recorded file `/a/rec.wav`, defaults everywhere, keeping
output files, with the executable resolved. -/
def wKeep : TranscriptionWorker :=
  { audio_file := "/a/rec.wav", language := "Auto", model_name := "turbo",
    device := "Auto", keep_output_files := true, whisper_executable := some "whisper" }

/-- The same worker with `keep_output_files` false. -/
def wClean : TranscriptionWorker :=
  { wKeep with keep_output_files := false }

/-- The same worker with the executable unresolved. -/
def wNoExe : TranscriptionWorker :=
  { wKeep with whisper_executable := none }

/-! ## Claims -/

/-- Claim C1, counterexample: a job whose stderr produced a keyword-matching
line (reported as a failure) and whose process then exits 0 with the result
file present delivers BOTH a failure and a success — `finished.emit` at line
135 is not guarded by `_is_error_emitted` — refuting "never both a success
and a failure". -/
theorem runJob_both_failure_and_success_cx :
    (runJob wKeep "/a" { stdoutLines := [], stderrLines := ["error: boom"], returncode := 0 }
      [] [("/a/rec.txt", " hi \n")]).1.countP isErrorEv = 1 ∧
    (runJob wKeep "/a" { stdoutLines := [], stderrLines := ["error: boom"], returncode := 0 }
      [] [("/a/rec.txt", " hi \n")]).1.countP isFinishedEv = 1 := by
  constructor <;> decide

/-- Claim C1, amended: for every submitted job at least one terminal event is
delivered, never more than one failure and never more than one success; but a
failure and a success can both be delivered for the same job (a
stderr-keyword failure followed by an exit-0 success with the result file
present). -/
theorem runJob_at_most_one_failure_at_most_one_success
    (w : TranscriptionWorker) (cwd : String) (pr : ProcResult) (sched : List Bool) (fs : FS) :
    1 ≤ (runJob w cwd pr sched fs).1.countP isTerminalEv ∧
    (runJob w cwd pr sched fs).1.countP isErrorEv ≤ 1 ∧
    (runJob w cwd pr sched fs).1.countP isFinishedEv ≤ 1 := by
  cases hexe : w.whisper_executable with
  | none => simp [runJob, hexe, List.countP_cons, isTerminalEv, isErrorEv, isFinishedEv]
  | some e =>
    rw [countP_terminal, runJob_errCount w cwd pr sched fs e hexe,
      runJob_finCount w cwd pr sched fs e hexe]
    by_cases h1 : pr.returncode = 0 ∧ (fsLookup fs (txt_file cwd w.audio_file)).isSome <;>
      cases h2 : (readStderrLines pr.stderrLines false).2 <;> simp [h1, h2]

/-- Claim C2: when the process exits 0 and the result file exists, the job
reports success and the reported transcript is the file's contents with
leading and trailing whitespace stripped (and that success is the only one). -/
theorem runJob_success_transcript (w : TranscriptionWorker) (cwd : String)
    (pr : ProcResult) (sched : List Bool) (fs : FS) (e content : String)
    (hexe : w.whisper_executable = some e) (hrc : pr.returncode = 0)
    (hfile : fsLookup fs (txt_file cwd w.audio_file) = some content) :
    Ev.finished (pyStrip content) ∈ (runJob w cwd pr sched fs).1 ∧
    (runJob w cwd pr sched fs).1.countP isFinishedEv = 1 := by
  constructor
  · simp only [runJob, hexe, List.mem_append]
    right
    unfold postEvents
    by_cases hkeep : w.keep_output_files = true <;> simp [hrc, hfile, hkeep]
  · rw [runJob_finCount w cwd pr sched fs e hexe]
    simp [hrc, hfile]

/-- Claim C2 witness. -/
theorem runJob_success_transcript_witness :
    Ev.finished (pyStrip " hi \n") ∈
      (runJob wKeep "/a" { stdoutLines := [], stderrLines := [], returncode := 0 }
        [] [("/a/rec.txt", " hi \n")]).1 ∧
    (runJob wKeep "/a" { stdoutLines := [], stderrLines := [], returncode := 0 }
      [] [("/a/rec.txt", " hi \n")]).1.countP isFinishedEv = 1 :=
  runJob_success_transcript wKeep "/a"
    { stdoutLines := [], stderrLines := [], returncode := 0 } []
    [("/a/rec.txt", " hi \n")] "whisper" " hi \n" rfl rfl (by decide)

/-- Claim C3: when the process exits 0 but the result file is absent, the job
fails with the result-file-missing message if no stderr error was already
reported, and exactly one failure is delivered in total either way. -/
theorem runJob_result_file_missing (w : TranscriptionWorker) (cwd : String)
    (pr : ProcResult) (sched : List Bool) (fs : FS) (e : String)
    (hexe : w.whisper_executable = some e) (hrc : pr.returncode = 0)
    (hfile : fsLookup fs (txt_file cwd w.audio_file) = none) :
    ((readStderrLines pr.stderrLines false).2 = false →
      Ev.error (txtMissingMsg (txt_file cwd w.audio_file)) ∈ (runJob w cwd pr sched fs).1) ∧
    (runJob w cwd pr sched fs).1.countP isErrorEv = 1 := by
  constructor
  · intro hflag
    simp only [runJob, hexe, List.mem_append]
    right
    unfold postEvents
    simp [hrc, hfile, hflag]
  · rw [runJob_errCount w cwd pr sched fs e hexe]
    cases h2 : (readStderrLines pr.stderrLines false).2 <;> simp [hrc, hfile, h2]

/-- Claim C3 witness. -/
theorem runJob_result_file_missing_witness :
    ((readStderrLines ([] : List String) false).2 = false →
      Ev.error (txtMissingMsg (txt_file "/a" wKeep.audio_file)) ∈
        (runJob wKeep "/a" { stdoutLines := [], stderrLines := [], returncode := 0 }
          [] []).1) ∧
    (runJob wKeep "/a" { stdoutLines := [], stderrLines := [], returncode := 0 }
      [] []).1.countP isErrorEv = 1 :=
  runJob_result_file_missing wKeep "/a"
    { stdoutLines := [], stderrLines := [], returncode := 0 } [] [] "whisper"
    rfl rfl (by decide)

/-- Claim C4: when the process exits with a nonzero code and no stderr error
was already reported, the job fails with the process-failed message carrying
exactly that exit code, and that failure is the only one. -/
theorem runJob_process_failed (w : TranscriptionWorker) (cwd : String)
    (pr : ProcResult) (sched : List Bool) (fs : FS) (e : String)
    (hexe : w.whisper_executable = some e) (hrc : pr.returncode ≠ 0)
    (hflag : (readStderrLines pr.stderrLines false).2 = false) :
    Ev.error (processFailedMsg pr.returncode) ∈ (runJob w cwd pr sched fs).1 ∧
    (runJob w cwd pr sched fs).1.countP isErrorEv = 1 := by
  constructor
  · simp only [runJob, hexe, List.mem_append]
    right
    unfold postEvents
    simp [hrc, hflag]
  · rw [runJob_errCount w cwd pr sched fs e hexe]
    simp [hrc, hflag]

/-- Claim C4 witness. -/
theorem runJob_process_failed_witness :
    Ev.error (processFailedMsg (2 : Int)) ∈
      (runJob wKeep "/a" { stdoutLines := [], stderrLines := [], returncode := 2 }
        [] []).1 ∧
    (runJob wKeep "/a" { stdoutLines := [], stderrLines := [], returncode := 2 }
      [] []).1.countP isErrorEv = 1 :=
  runJob_process_failed wKeep "/a"
    { stdoutLines := [], stderrLines := [], returncode := 2 } [] [] "whisper"
    rfl (by decide) (by decide)

/-- The invocation as the specification words it: executable, audio path,
model flag, language flag included iff the language is not "Auto" (verbatim),
device flag omitted for "Auto" and otherwise mapped to the lowercase device
token, output-directory flag set to the audio file's containing directory,
output-format flag fixed to plain text.  This definition follows the spec's
words, to be compared with `buildCmd`, which follows the source. -/
def spec_invocation (w : TranscriptionWorker) (exe : String) (cwd : String) : List String :=
  [exe, w.audio_file, "--model", w.model_name]
    ++ (if w.language = "Auto" then [] else ["--language", w.language])
    ++ (if w.device = "Auto" then []
        else if w.device = "GPU (CUDA)" then ["--device", "cuda"]
        else ["--device", "cpu"])
    ++ ["--output_dir", output_dir cwd w.audio_file, "--output_format", "txt"]

/-- Claim C5: for every job whose language comes from the UI's language list
and whose device comes from the UI's device list, the built command is
exactly the invocation the specification describes. -/
theorem buildCmd_matches_spec_invocation (w : TranscriptionWorker) (exe cwd : String)
    (hl : w.language ∈ COMMON_WHISPER_LANGUAGES) (hd : w.device ∈ device_options) :
    buildCmd w exe cwd = spec_invocation w exe cwd := by
  have hne : w.language ≠ "" := by
    intro h
    rw [h] at hl
    exact absurd hl (by decide)
  have hd3 : w.device = "Auto" ∨ w.device = "GPU (CUDA)" ∨ w.device = "CPU" := by
    simpa [device_options] using hd
  have hgpu : ¬ ("GPU (CUDA)" : String) = "Auto" := by decide
  have hcpu1 : ¬ ("CPU" : String) = "Auto" := by decide
  have hcpu2 : ¬ ("CPU" : String) = "GPU (CUDA)" := by decide
  have hauto1 : ¬ ("Auto" : String) = "GPU (CUDA)" := by decide
  have hauto2 : ¬ ("Auto" : String) = "CPU" := by decide
  by_cases ha : w.language = "Auto" <;>
    rcases hd3 with hdv | hdv | hdv <;>
      simp [buildCmd, spec_invocation, hne, ha, hdv, hgpu, hcpu1, hcpu2, hauto1, hauto2]

/-- Claim C5 witness: language "French" and device "CPU". -/
theorem buildCmd_matches_spec_invocation_witness :
    buildCmd
      { audio_file := "/a/rec.wav", language := "French", model_name := "turbo",
        device := "CPU", keep_output_files := false, whisper_executable := some "whisper" }
      "whisper" "/a"
    = spec_invocation
      { audio_file := "/a/rec.wav", language := "French", model_name := "turbo",
        device := "CPU", keep_output_files := false, whisper_executable := some "whisper" }
      "whisper" "/a" :=
  buildCmd_matches_spec_invocation _ "whisper" "/a" (by decide) (by decide)

/-- Claim C6: after a successful job with `keep_output_files` false, none of
the five sibling output artifacts for the audio's base name remain in the
snapshot; with `keep_output_files` true the snapshot is untouched. -/
theorem runJob_cleanup_output_files (w : TranscriptionWorker) (cwd : String)
    (pr : ProcResult) (sched : List Bool) (fs : FS) (e content : String)
    (hexe : w.whisper_executable = some e) (hrc : pr.returncode = 0)
    (hfile : fsLookup fs (txt_file cwd w.audio_file) = some content) :
    (w.keep_output_files = false →
      ∀ ext ∈ extensions_to_remove,
        fsLookup (runJob w cwd pr sched fs).2 (base_path_no_ext cwd w.audio_file ++ ext)
          = none) ∧
    (w.keep_output_files = true → (runJob w cwd pr sched fs).2 = fs) := by
  constructor
  · intro hkeep ext hext
    simp only [runJob, hexe]
    unfold postEvents
    simp [hrc, hfile, hkeep]
    unfold cleanup_temp_files
    exact fsLookup_foldl_remove _ _ _ ⟨ext, hext, rfl⟩ fs
  · intro hkeep
    simp only [runJob, hexe]
    unfold postEvents
    simp [hrc, hfile, hkeep]

/-- Claim C6 witness. -/
theorem runJob_cleanup_output_files_witness :
    (wClean.keep_output_files = false →
      ∀ ext ∈ extensions_to_remove,
        fsLookup
          (runJob wClean "/a" { stdoutLines := [], stderrLines := [], returncode := 0 }
            [] [("/a/rec.txt", "hi"), ("/a/rec.srt", "s"), ("/a/other.txt", "y")]).2
          (base_path_no_ext "/a" wClean.audio_file ++ ext) = none) ∧
    (wClean.keep_output_files = true →
      (runJob wClean "/a" { stdoutLines := [], stderrLines := [], returncode := 0 }
        [] [("/a/rec.txt", "hi"), ("/a/rec.srt", "s"), ("/a/other.txt", "y")]).2
      = [("/a/rec.txt", "hi"), ("/a/rec.srt", "s"), ("/a/other.txt", "y")]) :=
  runJob_cleanup_output_files wClean "/a"
    { stdoutLines := [], stderrLines := [], returncode := 0 } []
    [("/a/rec.txt", "hi"), ("/a/rec.srt", "s"), ("/a/other.txt", "y")] "whisper" "hi"
    rfl rfl (by decide)

/-- Claim C7, counterexample: the terminal failure reported from a
keyword-matching stderr line is followed by a progress notification for the
next (non-matching) stderr line, so the terminal notification is not the
last one. -/
theorem runJob_progress_after_failure_cx :
    (runJob wKeep "/a"
      { stdoutLines := [], stderrLines := ["error: boom", "loading stuff"], returncode := 1 }
      [] []).1
    = [Ev.progress preparingMsg, Ev.progress (startingMsg wKeep),
       Ev.error (runtimeErrMsg "error: boom"), Ev.progress "loading stuff"] := by
  decide

/-- Claim C7, amended: every terminal notification emitted by the supervisor
thread itself is the last notification delivered for the job — the
executable-not-found failure emitted at startup, the success, the
result-file-missing failure and the process-failed failure emitted after the
process exits (the latter two are emitted at all only when no stderr error
preempted them); only a failure reported from a stderr line may be followed
by further notifications. -/
theorem runJob_run_thread_terminal_is_last (w : TranscriptionWorker) (cwd : String)
    (pr : ProcResult) (sched : List Bool) (fs : FS) :
    (w.whisper_executable = none →
      (runJob w cwd pr sched fs).1.getLast? = some (Ev.error exeNotFoundMsg)) ∧
    (∀ e content, w.whisper_executable = some e → pr.returncode = 0 →
      fsLookup fs (txt_file cwd w.audio_file) = some content →
      (runJob w cwd pr sched fs).1.getLast? = some (Ev.finished (pyStrip content))) ∧
    (∀ e, w.whisper_executable = some e → pr.returncode = 0 →
      fsLookup fs (txt_file cwd w.audio_file) = none →
      (readStderrLines pr.stderrLines false).2 = false →
      (runJob w cwd pr sched fs).1.getLast?
        = some (Ev.error (txtMissingMsg (txt_file cwd w.audio_file)))) ∧
    (∀ e, w.whisper_executable = some e → pr.returncode ≠ 0 →
      (readStderrLines pr.stderrLines false).2 = false →
      (runJob w cwd pr sched fs).1.getLast?
        = some (Ev.error (processFailedMsg pr.returncode))) := by
  refine ⟨?_, ?_, ?_, ?_⟩
  · intro hexe
    simp [runJob, hexe]
  · intro e content hexe hrc hfile
    have hpost :
        (postEvents w cwd pr.returncode (readStderrLines pr.stderrLines false).2 fs).1 ≠ []
        ∧ (postEvents w cwd pr.returncode (readStderrLines pr.stderrLines false).2 fs).1.getLast?
          = some (Ev.finished (pyStrip content)) := by
      unfold postEvents
      by_cases hkeep : w.keep_output_files = true <;> simp [hrc, hfile, hkeep]
    simp only [runJob, hexe]
    rw [List.getLast?_append_of_ne_nil _ hpost.1, hpost.2]
  · intro e hexe hrc hfile hflag
    have hpost :
        (postEvents w cwd pr.returncode (readStderrLines pr.stderrLines false).2 fs).1 ≠ []
        ∧ (postEvents w cwd pr.returncode (readStderrLines pr.stderrLines false).2 fs).1.getLast?
          = some (Ev.error (txtMissingMsg (txt_file cwd w.audio_file))) := by
      unfold postEvents
      simp [hrc, hfile, hflag]
    simp only [runJob, hexe]
    rw [List.getLast?_append_of_ne_nil _ hpost.1, hpost.2]
  · intro e hexe hrc hflag
    have hpost :
        (postEvents w cwd pr.returncode (readStderrLines pr.stderrLines false).2 fs).1 ≠ []
        ∧ (postEvents w cwd pr.returncode (readStderrLines pr.stderrLines false).2 fs).1.getLast?
          = some (Ev.error (processFailedMsg pr.returncode)) := by
      unfold postEvents
      simp [hrc, hflag]
    simp only [runJob, hexe]
    rw [List.getLast?_append_of_ne_nil _ hpost.1, hpost.2]

/-- Claim C7 witness (for the amended claim): all four run-thread terminal
events are last at concrete inputs — the unresolved-executable failure, a
success that follows a reported stderr failure, a result-file-missing
failure, and a process-failed failure. -/
theorem runJob_run_thread_terminal_is_last_witness :
    (runJob wNoExe "/a" { stdoutLines := [], stderrLines := [], returncode := 0 }
      [] []).1.getLast? = some (Ev.error exeNotFoundMsg) ∧
    (runJob wKeep "/a" { stdoutLines := [], stderrLines := ["error: boom"], returncode := 0 }
      [] [("/a/rec.txt", " hi \n")]).1.getLast? = some (Ev.finished (pyStrip " hi \n")) ∧
    (runJob wKeep "/a" { stdoutLines := [], stderrLines := [], returncode := 0 }
      [] []).1.getLast? = some (Ev.error (txtMissingMsg (txt_file "/a" wKeep.audio_file))) ∧
    (runJob wKeep "/a" { stdoutLines := [], stderrLines := [], returncode := 2 }
      [] []).1.getLast? = some (Ev.error (processFailedMsg 2)) :=
  ⟨(runJob_run_thread_terminal_is_last wNoExe "/a"
      { stdoutLines := [], stderrLines := [], returncode := 0 } [] []).1 rfl,
   (runJob_run_thread_terminal_is_last wKeep "/a"
      { stdoutLines := [], stderrLines := ["error: boom"], returncode := 0 } []
      [("/a/rec.txt", " hi \n")]).2.1 "whisper" " hi \n" rfl rfl (by decide),
   (runJob_run_thread_terminal_is_last wKeep "/a"
      { stdoutLines := [], stderrLines := [], returncode := 0 } [] []).2.2.1 "whisper"
      rfl rfl (by decide) (by decide),
   (runJob_run_thread_terminal_is_last wKeep "/a"
      { stdoutLines := [], stderrLines := [], returncode := 2 } [] []).2.2.2 "whisper"
      rfl (by decide) (by decide)⟩

/-- Claim C8: stopping with zero captured chunks writes no audio file,
reports the empty-recording warning, and leaves the controller Idle. -/
theorem stop_recording_empty_no_file (s : VoiceRecorderState) (ts : String)
    (h : s.audio_frames = []) :
    (stop_recording s ts).2.1 = none ∧
    (stop_recording s ts).2.2 = [RecEvent.emptyRecordingWarning] ∧
    isIdle (stop_recording s ts).1 = true := by
  unfold stop_recording
  simp [h, isIdle]

/-- Claim C8 witness. -/
theorem stop_recording_empty_no_file_witness :
    (stop_recording initState "20250101_120000").2.1 = none ∧
    (stop_recording initState "20250101_120000").2.2 = [RecEvent.emptyRecordingWarning] ∧
    isIdle (stop_recording initState "20250101_120000").1 = true :=
  stop_recording_empty_no_file initState "20250101_120000" rfl

/-- Claim C9, counterexample: when a capture-loop read failure terminates the
read loop, the `recording` flag is cleared but the elapsed-seconds timer is
still running — `record_audio_thread` never calls `timer.stop()` — refuting
"stops immediately whenever recording stops, including ... a capture-loop
read failure". -/
theorem capture_read_failure_leaves_timer_on_cx :
    (record_audio_step (start_recording initState) none).recording = false ∧
    (record_audio_step (start_recording initState) none).timerOn = true := by
  constructor <;> rfl

/-- Claim C9, amended: the capture loop never touches the timer (so after a
read failure the timer keeps running until `stop_recording` is invoked), and
`stop_recording` always stops the timer. -/
theorem timer_stopped_only_by_stop_recording :
    (∀ (s : VoiceRecorderState) (r : Option (List Nat)),
      (record_audio_step s r).timerOn = s.timerOn) ∧
    (∀ (s : VoiceRecorderState) (ts : String),
      (stop_recording s ts).1.timerOn = false) := by
  constructor
  · intro s r
    unfold record_audio_step
    by_cases hrec : s.recording = true
    · cases r <;> simp [hrec]
    · simp [hrec]
  · intro s ts
    unfold stop_recording
    by_cases h : s.audio_frames = [] <;> simp [h]

/-- Relaying a prefix of non-matching stderr lines leaves the flag clear and
turns each non-empty line into a progress event. -/
theorem readStderrLines_no_match (pre : List String) (ls : List String)
    (h : ∀ p ∈ pre, isErrLine (pyStrip p) = false) :
    readStderrLines (pre ++ ls) false
      = (pre.filterMap progressOnly ++ (readStderrLines ls false).1,
         (readStderrLines ls false).2) := by
  induction pre with
  | nil => simp
  | cons p pre ih =>
    have hp : isErrLine (pyStrip p) = false := h p (List.mem_cons_self p pre)
    have hrest : ∀ q ∈ pre, isErrLine (pyStrip q) = false := fun q hq =>
      h q (List.mem_cons_of_mem p hq)
    simp only [List.cons_append, readStderrLines]
    by_cases hc : pyStrip p = ""
    · have hhead : processStderrLine false p = ([], false) := by
        simp [processStderrLine, hc]
      simp [hhead, ih hrest, progressOnly, hc, List.filterMap_cons]
    · have hhead : processStderrLine false p = ([Ev.progress (pyStrip p)], false) := by
        simp [processStderrLine, hc, hp]
      simp [hhead, ih hrest, progressOnly, hc, hp, List.filterMap_cons]

/-- Claim C10: after the first keyword-matching stderr line (here: following
any prefix of non-matching lines) has been reported as the failure, every
later matching line is discarded entirely — no error, no progress — while
non-matching non-empty lines continue to be relayed as progress. -/
theorem readStderr_after_first_error (pre : List String) (l : String) (rest : List String)
    (hpre : ∀ p ∈ pre, isErrLine (pyStrip p) = false)
    (hm : isErrLine (pyStrip l) = true) (hne : pyStrip l ≠ "") :
    readStderrLines (pre ++ l :: rest) false
      = (pre.filterMap progressOnly
          ++ Ev.error (runtimeErrMsg (pyStrip l)) :: rest.filterMap progressOnly, true) := by
  rw [readStderrLines_no_match pre (l :: rest) hpre]
  have hhead : processStderrLine false l = ([Ev.error (runtimeErrMsg (pyStrip l))], true) := by
    simp [processStderrLine, hne, hm]
  simp only [readStderrLines, hhead, readStderrLines_flagTrue]
  rfl

/-- Claim C10 witness: a later matching line ("it failed again") is dropped
while a non-matching line ("more progress") is still relayed. -/
theorem readStderr_after_first_error_witness :
    readStderrLines (["loading stuff"] ++ "Error: kaboom" :: ["it failed again", "more progress"]) false
      = (["loading stuff"].filterMap progressOnly
          ++ Ev.error (runtimeErrMsg (pyStrip "Error: kaboom"))
            :: ["it failed again", "more progress"].filterMap progressOnly, true) :=
  readStderr_after_first_error ["loading stuff"] "Error: kaboom"
    ["it failed again", "more progress"] (by decide) (by decide) (by decide)

end Whisperthingy
